import Mathlib

/-!
Shallow embedding of the system-summary program in src/main.rs.

Modelling conventions:
- Rust u64 / usize values are `Nat`, with wrap-around made explicit (`% 2 ^ 64`)
  where the source can overflow; usize is modelled for a 64-bit target.
- `HashMap` is modelled as an association list in iteration order; `insert`
  replaces any existing binding for the key (`hm_insert`).
- The sysinfo / whoami platform collaborators are modelled as a snapshot
  structure `SystemSnapshot` holding exactly the data the source queries,
  after the lossy byte-to-text decodings the source applies.
- Fallible operations return `Option`; `none` models a process abort.  In
  particular `chrono::Duration::seconds` aborts when its argument exceeds
  `i64.MAX` milliseconds in either direction, which the embedding makes
  explicit in `convert_unix_to_human_string`.
- The f32 sensor reading is modelled as a rational; the Rust one-decimal
  rounded rendering of it is modelled by `fmt_1dec`.
-/

/-- Source constant LOGO_HEIGHT (main.rs line 9). -/
def LOGO_HEIGHT : Nat := 9

/-- Source constant LOGO_WIDTH (main.rs line 10). -/
def LOGO_WIDTH : Nat := 32

/-- Source constant LOGO (main.rs lines 11-21), the nine pre-authored panel
rows, transcribed byte for byte. -/
def LOGO : List String :=
  [ "                               ",
    "    #       #      *#*         ",
    "    ##     ##      *#*         ",
    "    #  # #  #      *#*         ",
    "    #   #   #      *#*         ",
    "    #       #      *#*         ",
    "    #       #      *#*         ",
    "    #       #      *#*         ",
    "                               " ]

/-- Struct DiskInfo of the source. -/
structure DiskInfo where
  mount_point : String
  total_space_gb : Nat
  used_space_gb : Nat
  filesystem : String
deriving DecidableEq

/-- Struct TemperatureInfo of the source; the f32 reading is modelled as a
rational number. -/
structure TemperatureInfo where
  label : String
  temperature_celsius : Rat
deriving DecidableEq

/-- Struct NetworkInfo of the source. -/
structure NetworkInfo where
  interface_name : String
  bytes_sent : Nat
  bytes_received : Nat
  packets_sent : Nat
  packets_received : Nat
deriving DecidableEq

/-- Struct OutputInfo of the source.  The three HashMap fields are modelled
as association lists in iteration order. -/
structure OutputInfo where
  username : String
  hostname : String
  os : String
  kernel : String
  uptime : Nat
  disks : List (String × DiskInfo)
  temperatures : List (String × TemperatureInfo)
  networks : List (String × NetworkInfo)
deriving DecidableEq

/-- One disk as exposed by the sysinfo collaborator: mount point after
to_string_lossy, byte counters, and the filesystem name after
String.from_utf8_lossy. -/
structure PlatformDisk where
  mount_point : String
  total_space : Nat
  available_space : Nat
  file_system : String
deriving DecidableEq

/-- One sensor component as exposed by the sysinfo collaborator. -/
structure PlatformComponent where
  label : String
  temperature : Rat
deriving DecidableEq

/-- One network interface as exposed by the sysinfo collaborator. -/
structure PlatformNetwork where
  interface_name : String
  total_transmitted : Nat
  total_received : Nat
  packets_transmitted : Nat
  packets_received : Nat
deriving DecidableEq

/-- The ambient host state read by the program: the sysinfo System plus the
whoami queries, as one immutable snapshot.  Fallible queries are Options. -/
structure SystemSnapshot where
  username : String
  hostname_result : Option String
  distro : String
  kernel_version : Option String
  uptime : Nat
  disks : List PlatformDisk
  components : List PlatformComponent
  networks : List PlatformNetwork
deriving DecidableEq

/-- Rust u64 modulus. -/
def U64_MOD : Nat := 2 ^ 64

/-- Release-mode Rust u64 subtraction: wraps modulo 2 ^ 64 on underflow. -/
def u64_sub (a b : Nat) : Nat := (a + U64_MOD - b) % U64_MOD

/-- Source get_username (main.rs 86-88): whoami username, never failing. -/
def get_username (sys : SystemSnapshot) : String := sys.username

/-- Source get_hostname (main.rs 90-92): fallible hostname with unwrap_or. -/
def get_hostname (sys : SystemSnapshot) : String :=
  sys.hostname_result.getD "unknown"

/-- Source get_os_name (main.rs 94-96): whoami distro. -/
def get_os_name (sys : SystemSnapshot) : String := sys.distro

/-- Source kernel (main.rs 98-100): kernel_version with unwrap_or_else. -/
def kernel (sys : SystemSnapshot) : String :=
  sys.kernel_version.getD "unknown"

/-- Source get_uptime (main.rs 102-104): u64 uptime cast to usize, the
identity on a 64-bit target. -/
def get_uptime (sys : SystemSnapshot) : Nat := sys.uptime

/-- HashMap insert on the association-list model: any existing binding for
the key is replaced by the new one. -/
def hm_insert {α : Type} (k : String) (v : α) (m : List (String × α)) :
    List (String × α) :=
  m.filter (fun p => p.1 != k) ++ [(k, v)]

/-- The DiskInfo literal built in the loop body of get_disk_info
(main.rs 112-117). -/
def mk_disk_entry (disk : PlatformDisk) : DiskInfo :=
  { mount_point := disk.mount_point
    total_space_gb := disk.total_space / 1024 / 1024 / 1024
    used_space_gb := u64_sub disk.total_space disk.available_space / 1024 / 1024 / 1024
    filesystem := disk.file_system }

/-- Source get_disk_info (main.rs 106-121). -/
def get_disk_info (sys : SystemSnapshot) : List (String × DiskInfo) :=
  sys.disks.foldl (fun m disk => hm_insert disk.mount_point (mk_disk_entry disk) m) []

/-- The TemperatureInfo literal built in the loop body of
get_temperature_info (main.rs 129-132). -/
def mk_temp_entry (component : PlatformComponent) : TemperatureInfo :=
  { label := component.label
    temperature_celsius := component.temperature }

/-- Source get_temperature_info (main.rs 123-136). -/
def get_temperature_info (sys : SystemSnapshot) : List (String × TemperatureInfo) :=
  sys.components.foldl
    (fun m component => hm_insert component.label (mk_temp_entry component) m) []

/-- The NetworkInfo literal built in the loop body of get_network_info
(main.rs 143-149). -/
def mk_network_entry (network : PlatformNetwork) : NetworkInfo :=
  { interface_name := network.interface_name
    bytes_sent := network.total_transmitted
    bytes_received := network.total_received
    packets_sent := network.packets_transmitted
    packets_received := network.packets_received }

/-- Source get_network_info (main.rs 138-153). -/
def get_network_info (sys : SystemSnapshot) : List (String × NetworkInfo) :=
  sys.networks.foldl
    (fun m network => hm_insert network.interface_name (mk_network_entry network) m) []

/-- Largest argument accepted by chrono Duration.seconds: i64.MAX
milliseconds expressed in whole seconds.  Beyond this magnitude the chrono
constructor aborts the process. -/
def CHRONO_DURATION_MAX_SECS : Nat := 9223372036854775

/-- The value of `n as i64` for a usize n on a 64-bit target:
two complement reinterpretation. -/
def usize_as_i64 (n : Nat) : Int :=
  if n < 2 ^ 63 then (n : Int) else (n : Int) - 2 ^ 64

/-- Source convert_unix_to_human_string (main.rs 155-168).  Returns none
when chrono Duration.seconds aborts (argument out of its bounds); otherwise
num_days, num_hours and num_minutes are i64 divisions and remainders, which
truncate toward zero exactly like Int.tdiv / Int.tmod. -/
def convert_unix_to_human_string (unix_time : Nat) : Option String :=
  let secs : Int := usize_as_i64 unix_time
  if secs.natAbs > CHRONO_DURATION_MAX_SECS then none
  else
    let days : Int := secs.tdiv 86400
    let hours : Int := (secs.tdiv 3600).tmod 24
    let minutes : Int := (secs.tdiv 60).tmod 60
    if days > 0 then
      some (toString days ++ "d " ++ toString hours ++ "h " ++ toString minutes ++ "m")
    else if hours > 0 then
      some (toString hours ++ "h " ++ toString minutes ++ "m")
    else
      some (toString minutes ++ "m")

/-- Rust str.repeat on a single space, as in the LOGO_WIDTH padding. -/
def spaces (n : Nat) : String := String.mk (List.replicate n ' ')

/-- Rust str.repeat on a single dash, as in the separator line. -/
def dashes (n : Nat) : String := String.mk (List.replicate n '-')

/-- Rust String.len: the UTF-8 byte length, not the character count. -/
def rust_len (s : String) : Nat := s.data.foldl (fun n c => n + c.utf8Size) 0

/-- One-decimal rendering of the sensor reading, modelling the Rust
one-decimal float format of the f32 value (rounding mode approximated as
round half up; the claims under proof never depend on tie cases). -/
def fmt_1dec (x : Rat) : String :=
  let t : Int := ⌊x * 10 + 1 / 2⌋
  (if t < 0 then "-" else "") ++ toString (t.natAbs / 10) ++ "." ++ toString (t.natAbs % 10)

/-- The disk line pushed in print_all_info (main.rs 178-183). -/
def disk_line (mount_point : String) (disk_info : DiskInfo) : String :=
  "Disk:      " ++ mount_point ++ " - " ++ toString disk_info.used_space_gb
    ++ " GB used / " ++ toString disk_info.total_space_gb ++ " GB total, FS: "
    ++ disk_info.filesystem

/-- The temperature line pushed in print_all_info (main.rs 184-189).  The
suffix after the reading is transcribed byte for byte from the source
literal: it is the three characters A-circumflex, degree sign, C (the
source literal is double-encoded UTF-8). -/
def temp_line (label : String) (temp_info : TemperatureInfo) : String :=
  "Temp:      " ++ label ++ " - " ++ fmt_1dec temp_info.temperature_celsius ++ "Â°C"

/-- The network line pushed in print_all_info (main.rs 190-199). -/
def network_line (interface_name : String) (network_info : NetworkInfo) : String :=
  "Network:   " ++ interface_name ++ " - "
    ++ toString (network_info.bytes_sent / 1024 / 1024) ++ " MB sent, "
    ++ toString (network_info.bytes_received / 1024 / 1024) ++ " MB recv, "
    ++ toString network_info.packets_sent ++ " pkts sent, "
    ++ toString network_info.packets_received ++ " pkts recv"

/-- The output_info_vec built in print_all_info (main.rs 171-199), given the
already formatted uptime string. -/
def report_lines (o : OutputInfo) (uptime_str : String) : List String :=
  [ o.username ++ "@" ++ o.hostname,
    dashes (rust_len o.username + rust_len o.hostname + 1),
    "OS:        " ++ o.os,
    "Kernel:    " ++ o.kernel,
    "Uptime:    " ++ uptime_str ]
  ++ o.disks.map (fun p => disk_line p.1 p.2)
  ++ o.temperatures.map (fun p => temp_line p.1 p.2)
  ++ o.networks.map (fun p => network_line p.1 p.2)

/-- The enumerated print loop of print_all_info (main.rs 201-207): row idx
gets the logo row when idx < LOGO_HEIGHT, else LOGO_WIDTH spaces. -/
def pair_rows (idx : Nat) : List String → List String
  | [] => []
  | line :: rest =>
      ((if idx < LOGO_HEIGHT then LOGO.getD idx "" else spaces LOGO_WIDTH) ++ line)
        :: pair_rows (idx + 1) rest

/-- Source print_all_info (main.rs 170-214), as the list of printed lines:
a blank line, the paired rows, the unmatched trailing logo rows when the
vec is shorter than the logo, and a final blank line.  Returns none exactly
when the uptime conversion aborts. -/
def print_all_info (o : OutputInfo) : Option (List String) :=
  (convert_unix_to_human_string o.uptime).map (fun uptime_str =>
    let vec := report_lines o uptime_str
    [""] ++ pair_rows 0 vec
      ++ (if vec.length < LOGO_HEIGHT then LOGO.drop vec.length else [])
      ++ [""])

/-- Source main (main.rs 216-238): build the OutputInfo from one snapshot,
print it, return exit code 0.  none models a process abort. -/
def main_run (sys : SystemSnapshot) : Option (Nat × List String) :=
  let output_info : OutputInfo :=
    { username := get_username sys
      hostname := get_hostname sys
      os := get_os_name sys
      kernel := kernel sys
      uptime := get_uptime sys
      disks := get_disk_info sys
      temperatures := get_temperature_info sys
      networks := get_network_info sys }
  (print_all_info output_info).map (fun out => (0, out))

/-- Concrete snapshot with both fallible queries failing, used to witness
the fallback theorem. -/
def sys_fallbacks : SystemSnapshot :=
  { username := "alice", hostname_result := none, distro := "TestOS",
    kernel_version := none, uptime := 0, disks := [], components := [], networks := [] }

/-- Concrete snapshot whose uptime exceeds the chrono Duration bound. -/
def chrono_overflow_sys : SystemSnapshot :=
  { username := "alice", hostname_result := some "box", distro := "TestOS",
    kernel_version := some "1.0", uptime := 9223372036854776,
    disks := [], components := [], networks := [] }

/-- Concrete healthy snapshot, used to witness the pipeline theorem. -/
def small_sys : SystemSnapshot :=
  { username := "alice", hostname_result := some "box", distro := "TestOS",
    kernel_version := some "1.0", uptime := 3661,
    disks := [], components := [], networks := [] }

/-- Concrete OutputInfo whose uptime exceeds the chrono Duration bound. -/
def overflow_uptime_info : OutputInfo :=
  { username := "u", hostname := "h", os := "o", kernel := "k",
    uptime := 9223372036854776, disks := [], temperatures := [], networks := [] }

/-- Concrete OutputInfo with empty identity strings and no collections. -/
def empty_names_info : OutputInfo :=
  { username := "", hostname := "", os := "o", kernel := "k",
    uptime := 0, disks := [], temperatures := [], networks := [] }

/-- Concrete root disk, ext4, 100 bytes total. -/
def ext4_root_disk : PlatformDisk :=
  { mount_point := "/", total_space := 100, available_space := 50, file_system := "ext4" }

/-- Concrete root disk, btrfs, 200 bytes total, same mount point. -/
def btrfs_root_disk : PlatformDisk :=
  { mount_point := "/", total_space := 200, available_space := 50, file_system := "btrfs" }

/-- Concrete snapshot enumerating two disks with the same mount point. -/
def dup_mount_sys : SystemSnapshot :=
  { username := "alice", hostname_result := some "box", distro := "TestOS",
    kernel_version := some "1.0", uptime := 0,
    disks := [ext4_root_disk, btrfs_root_disk],
    components := [], networks := [] }

/-- Concrete disk used to witness the gigabyte-conversion theorem: 10 GiB
total, 5 GiB available. -/
def disk_ten_gib : PlatformDisk :=
  { mount_point := "/", total_space := 10737418240, available_space := 5368709120,
    file_system := "ext4" }

/-- Concrete OutputInfo with no collections, used to witness the renderer
pairing theorem. -/
def info_alice : OutputInfo :=
  { username := "alice", hostname := "box", os := "TestOS", kernel := "1.0",
    uptime := 0, disks := [], temperatures := [], networks := [] }

/-! Theorems. -/

/-- C3: every row of the decorative panel constant was meant to have exactly
LOGO_WIDTH characters; in the source all nine rows have 31 characters while
LOGO_WIDTH is 32, so paired report text starts one column left of the
LOGO_WIDTH-space prefix used for overflow lines.  This theorem evaluates
the constant and records the mismatch. -/
theorem logo_rows_one_short_of_logo_width :
    LOGO.length = LOGO_HEIGHT ∧
    (LOGO.all fun row => row.length == 31) = true ∧
    LOGO_WIDTH = 32 ∧
    (LOGO.all fun row => row.length == LOGO_WIDTH) = false := by
  decide

/-- C5: the duration formatter returns the six specified strings on the six
specified inputs. -/
theorem duration_formatter_examples :
    convert_unix_to_human_string 0 = some "0m" ∧
    convert_unix_to_human_string 59 = some "0m" ∧
    convert_unix_to_human_string 60 = some "1m" ∧
    convert_unix_to_human_string 3600 = some "1h 0m" ∧
    convert_unix_to_human_string 3661 = some "1h 1m" ∧
    convert_unix_to_human_string 90000 = some "1d 1h 0m" := by
  decide

/-- C7: the rendered temperature line was meant to end with the two
characters degree-sign C directly after the one-decimal reading; the source
literal is double-encoded UTF-8, so the code emits A-circumflex,
degree-sign, C instead.  This theorem evaluates the line on a concrete
entry and records the mismatch. -/
theorem temp_line_mojibake_suffix :
    temp_line "cpu" { label := "cpu", temperature_celsius := 45 }
      = "Temp:      cpu - 45.0Â°C" ∧
    (temp_line "cpu" { label := "cpu", temperature_celsius := 45 }
      == "Temp:      cpu - 45.0°C") = false := by
  have h : ⌊(45 : Rat) * 10 + 1 / 2⌋ = (450 : Int) := by norm_num
  constructor
  · simp only [temp_line, fmt_1dec, h]
    decide
  · simp only [temp_line, fmt_1dec, h]
    decide

/-- C9: a failed hostname lookup is replaced by the literal string unknown,
a missing kernel version is replaced by the literal string unknown, and in
both success cases the platform string is passed through unchanged. -/
theorem hostname_kernel_fallbacks (sys : SystemSnapshot) :
    (sys.hostname_result = none → get_hostname sys = "unknown") ∧
    (∀ h, sys.hostname_result = some h → get_hostname sys = h) ∧
    (sys.kernel_version = none → kernel sys = "unknown") ∧
    (∀ k, sys.kernel_version = some k → kernel sys = k) := by
  refine ⟨?_, ?_, ?_, ?_⟩ <;> intros <;> simp_all [get_hostname, kernel]

theorem hostname_kernel_fallbacks_witness :
    get_hostname sys_fallbacks = "unknown" ∧ kernel sys_fallbacks = "unknown" :=
  ⟨(hostname_kernel_fallbacks sys_fallbacks).1 rfl,
   (hostname_kernel_fallbacks sys_fallbacks).2.2.1 rfl⟩

/-- C6: for a platform disk whose byte counters satisfy available ≤ total
< 2 ^ 64, the entry the collector stores holds total / 2 ^ 30 and
(total - available) / 2 ^ 30 (the chained division by 1024 three times
equals one floor division by 2 ^ 30), and used ≤ total gigabytes. -/
theorem disk_entry_gigabytes (disk : PlatformDisk)
    (h1 : disk.available_space ≤ disk.total_space)
    (h2 : disk.total_space < U64_MOD) :
    (mk_disk_entry disk).total_space_gb = disk.total_space / 2 ^ 30 ∧
    (mk_disk_entry disk).used_space_gb
      = (disk.total_space - disk.available_space) / 2 ^ 30 ∧
    (mk_disk_entry disk).used_space_gb ≤ (mk_disk_entry disk).total_space_gb := by
  have hM : U64_MOD = 18446744073709551616 := by norm_num [U64_MOD]
  have hsub : u64_sub disk.total_space disk.available_space
      = disk.total_space - disk.available_space := by
    unfold u64_sub
    rw [hM] at h2 ⊢
    omega
  have hdiv : ∀ n : Nat, n / 1024 / 1024 / 1024 = n / 2 ^ 30 := by
    intro n
    rw [Nat.div_div_eq_div_mul, Nat.div_div_eq_div_mul]
    norm_num
  refine ⟨?_, ?_, ?_⟩
  · simp only [mk_disk_entry, hdiv]
  · simp only [mk_disk_entry, hsub, hdiv]
  · simp only [mk_disk_entry, hsub, hdiv]
    exact Nat.div_le_div_right (Nat.sub_le _ _)

theorem disk_entry_gigabytes_witness :
    (mk_disk_entry disk_ten_gib).total_space_gb = 10 ∧
    (mk_disk_entry disk_ten_gib).used_space_gb = 5 ∧
    (mk_disk_entry disk_ten_gib).used_space_gb
      ≤ (mk_disk_entry disk_ten_gib).total_space_gb := by
  have h := disk_entry_gigabytes disk_ten_gib (by decide)
    (by norm_num [disk_ten_gib, U64_MOD])
  refine ⟨h.1.trans (by norm_num [disk_ten_gib]),
          h.2.1.trans (by norm_num [disk_ten_gib]), h.2.2⟩

/-- C2: the second report line is a run of dashes whose character count is
len(username) + len(hostname) + 1, where len is the byte length Rust
String.len returns (the run is pure ASCII, so its character count and byte
count coincide); with both strings empty the separator is the single
dash. -/
theorem separator_width (o : OutputInfo) (uptime_str : String) :
    (report_lines o uptime_str)[1]?
      = some (dashes (rust_len o.username + rust_len o.hostname + 1)) ∧
    (dashes (rust_len o.username + rust_len o.hostname + 1)).data
      = List.replicate (rust_len o.username + rust_len o.hostname + 1) '-' ∧
    (dashes (rust_len o.username + rust_len o.hostname + 1)).length
      = rust_len o.username + rust_len o.hostname + 1 ∧
    (o.username = "" → o.hostname = "" →
      dashes (rust_len o.username + rust_len o.hostname + 1) = "-") := by
  refine ⟨?_, rfl, ?_, ?_⟩
  · simp [report_lines]
  · simp [dashes, String.length]
  · intro hu hh
    rw [hu, hh]
    decide

theorem separator_width_witness :
    (report_lines empty_names_info "0m")[1]? = some "-" := by
  have h := separator_width empty_names_info "0m"
  exact h.1.trans (congrArg some (h.2.2.2 rfl rfl))

theorem natCast_tdiv_86400 (s : Nat) :
    (s : Int).tdiv 86400 = ((s / 86400 : Nat) : Int) := rfl

theorem natCast_tdiv_3600 (s : Nat) :
    (s : Int).tdiv 3600 = ((s / 3600 : Nat) : Int) := rfl

theorem natCast_tdiv_60 (s : Nat) :
    (s : Int).tdiv 60 = ((s / 60 : Nat) : Int) := rfl

theorem natCast_tmod_24 (s : Nat) :
    (s : Int).tmod 24 = ((s % 24 : Nat) : Int) := rfl

theorem natCast_tmod_60 (s : Nat) :
    (s : Int).tmod 60 = ((s % 60 : Nat) : Int) := rfl

theorem toString_natCast_int (n : Nat) : toString ((n : Nat) : Int) = toString n := rfl

/-- Closed form of the duration formatter on arguments the chrono
constructor accepts: plain floor arithmetic on Nat. -/
theorem convert_eq_of_le_max (s : Nat) (hs : s ≤ CHRONO_DURATION_MAX_SECS) :
    convert_unix_to_human_string s =
      if 0 < s / 86400 then
        some (toString (s / 86400) ++ "d " ++ toString (s / 3600 % 24) ++ "h "
          ++ toString (s / 60 % 60) ++ "m")
      else if 0 < s / 3600 % 24 then
        some (toString (s / 3600 % 24) ++ "h " ++ toString (s / 60 % 60) ++ "m")
      else
        some (toString (s / 60 % 60) ++ "m") := by
  have hmax : CHRONO_DURATION_MAX_SECS < 2 ^ 63 := by
    norm_num [CHRONO_DURATION_MAX_SECS]
  have h63 : s < 2 ^ 63 := lt_of_le_of_lt hs hmax
  have hcast : usize_as_i64 s = (s : Int) := by
    rw [usize_as_i64, if_pos h63]
  simp only [convert_unix_to_human_string, hcast, Int.natAbs_ofNat,
    natCast_tdiv_86400, natCast_tdiv_3600, natCast_tdiv_60,
    natCast_tmod_24, natCast_tmod_60, toString_natCast_int]
  rw [if_neg (by omega : ¬ s > CHRONO_DURATION_MAX_SECS)]
  simp only [gt_iff_lt, Int.ofNat_pos]

/-- On every in-bound argument the formatter returns a string. -/
theorem convert_isSome_of_le_max (s : Nat) (hs : s ≤ CHRONO_DURATION_MAX_SECS) :
    ∃ u, convert_unix_to_human_string s = some u := by
  rw [convert_eq_of_le_max s hs]
  split
  · exact ⟨_, rfl⟩
  · split
    · exact ⟨_, rfl⟩
    · exact ⟨_, rfl⟩

theorem neg_natCast_tmod_24 (x : Nat) :
    (-((x : Int))).tmod 24 = -(((x % 24 : Nat) : Int)) := by
  cases x with
  | zero => decide
  | succ m => rfl

theorem neg_natCast_tmod_60 (x : Nat) :
    (-((x : Int))).tmod 60 = -(((x % 60 : Nat) : Int)) := by
  cases x with
  | zero => decide
  | succ m => rfl

/-- In the top half of the u64 range, `as i64` wraps to the negative value
uptime minus 2 ^ 64. -/
theorem usize_as_i64_wrap (s : Nat) (h63 : ¬ s < 2 ^ 63) (h2 : s < U64_MOD) :
    usize_as_i64 s = -(((U64_MOD - s : Nat) : Int)) := by
  rw [usize_as_i64, if_neg h63, Nat.cast_sub (le_of_lt h2)]
  have hU : ((U64_MOD : Nat) : Int) = 2 ^ 64 := by norm_num [U64_MOD]
  rw [hU]
  ring

/-- Arguments in the top 9223372036854775 values of the u64 range wrap to
in-bounds negative i64 values, which chrono accepts: the formatter then
takes the minutes branch with a negative minute count. -/
theorem convert_eq_of_wrap_neg (s : Nat)
    (h1 : U64_MOD - CHRONO_DURATION_MAX_SECS ≤ s) (h2 : s < U64_MOD) :
    convert_unix_to_human_string s
      = some (toString (-(((U64_MOD - s) / 60 % 60 : Nat) : Int)) ++ "m") := by
  have hM : U64_MOD = 18446744073709551616 := by norm_num [U64_MOD]
  have hC : CHRONO_DURATION_MAX_SECS = 9223372036854775 := rfl
  have hp : (2 : Nat) ^ 63 = 9223372036854775808 := by norm_num
  have h63 : ¬ s < 2 ^ 63 := by omega
  simp only [convert_unix_to_human_string, usize_as_i64_wrap s h63 h2,
    Int.natAbs_neg, Int.natAbs_ofNat, Int.neg_tdiv,
    natCast_tdiv_86400, natCast_tdiv_3600, natCast_tdiv_60,
    neg_natCast_tmod_24, neg_natCast_tmod_60]
  rw [if_neg (by omega : ¬ U64_MOD - s > CHRONO_DURATION_MAX_SECS)]
  rw [if_neg (by omega : ¬ (-(((U64_MOD - s) / 86400 : Nat) : Int)) > 0)]
  rw [if_neg (by omega : ¬ (-(((U64_MOD - s) / 3600 % 24 : Nat) : Int)) > 0)]

/-- On every wrapped-negative argument the formatter returns a string. -/
theorem convert_isSome_of_wrap_neg (s : Nat)
    (h1 : U64_MOD - CHRONO_DURATION_MAX_SECS ≤ s) (h2 : s < U64_MOD) :
    ∃ u, convert_unix_to_human_string s = some u :=
  ⟨_, convert_eq_of_wrap_neg s h1 h2⟩

/-- Strictly between the two accepted ranges the chrono constructor aborts
the process. -/
theorem convert_eq_none_of_panic (s : Nat)
    (h1 : CHRONO_DURATION_MAX_SECS < s)
    (h2 : s < U64_MOD - CHRONO_DURATION_MAX_SECS) :
    convert_unix_to_human_string s = none := by
  have hM : U64_MOD = 18446744073709551616 := by norm_num [U64_MOD]
  have hC : CHRONO_DURATION_MAX_SECS = 9223372036854775 := rfl
  have hp : (2 : Nat) ^ 63 = 9223372036854775808 := by norm_num
  by_cases h63 : s < 2 ^ 63
  · have husize : usize_as_i64 s = (s : Int) := by
      rw [usize_as_i64, if_pos h63]
    simp only [convert_unix_to_human_string, husize, Int.natAbs_ofNat]
    rw [if_pos h1]
  · have h64 : s < U64_MOD := by omega
    simp only [convert_unix_to_human_string, usize_as_i64_wrap s h63 h64,
      Int.natAbs_neg, Int.natAbs_ofNat]
    rw [if_pos (by omega : U64_MOD - s > CHRONO_DURATION_MAX_SECS)]

/-- C4 counterexample: at 9223372036854776, one second above the chrono
bound and below the wrap region, the duration formatter does not produce
any of the three branch forms; the process aborts in the chrono Duration
constructor. -/
theorem duration_formatter_overflow_cex :
    convert_unix_to_human_string 9223372036854776 = none := by decide

/-- C4 (amended): over the whole usize domain [0, 2 ^ 64).  For s up to the
chrono Duration bound of 9223372036854775 seconds the formatter produces
exactly one of the three branch forms selected in priority order, with
days = s / 86400, hours = s / 3600 mod 24, minutes = s / 60 mod 60 in floor
arithmetic, and the reconstruction days * 1440 + hours * 60 + minutes =
s / 60 holds.  For s strictly between that bound and 2 ^ 64 minus that
bound the process aborts in chrono Duration.seconds and no string is
produced.  For larger s, `s as i64` wraps to the negative value s - 2 ^ 64,
chrono accepts it, and the formatter returns the single form minutes ++ "m"
with the negative minute count -((2 ^ 64 - s) / 60 mod 60). -/
theorem duration_formatter_branches (s : Nat) (h64 : s < U64_MOD) :
    (s ≤ CHRONO_DURATION_MAX_SECS →
      (0 < s / 86400 → convert_unix_to_human_string s =
        some (toString (s / 86400) ++ "d " ++ toString (s / 3600 % 24) ++ "h "
          ++ toString (s / 60 % 60) ++ "m")) ∧
      (s / 86400 = 0 → 0 < s / 3600 % 24 → convert_unix_to_human_string s =
        some (toString (s / 3600 % 24) ++ "h " ++ toString (s / 60 % 60) ++ "m")) ∧
      (s / 86400 = 0 → s / 3600 % 24 = 0 → convert_unix_to_human_string s =
        some (toString (s / 60 % 60) ++ "m")) ∧
      s / 86400 * 1440 + s / 3600 % 24 * 60 + s / 60 % 60 = s / 60) ∧
    (CHRONO_DURATION_MAX_SECS < s → s < U64_MOD - CHRONO_DURATION_MAX_SECS →
      convert_unix_to_human_string s = none) ∧
    (U64_MOD - CHRONO_DURATION_MAX_SECS ≤ s →
      convert_unix_to_human_string s
        = some (toString (-(((U64_MOD - s) / 60 % 60 : Nat) : Int)) ++ "m")) := by
  refine ⟨?_, convert_eq_none_of_panic s, fun h1 => convert_eq_of_wrap_neg s h1 h64⟩
  intro hs
  rw [convert_eq_of_le_max s hs]
  refine ⟨?_, ?_, ?_, by omega⟩
  · intro hd
    rw [if_pos hd]
  · intro hd hh
    rw [if_neg (by omega), if_pos hh]
  · intro hd hh
    rw [if_neg (by omega), if_neg (by omega)]

theorem duration_formatter_branches_witness :
    (convert_unix_to_human_string 90000 =
      some (toString (90000 / 86400) ++ "d " ++ toString (90000 / 3600 % 24) ++ "h "
        ++ toString (90000 / 60 % 60) ++ "m") ∧
     90000 / 86400 * 1440 + 90000 / 3600 % 24 * 60 + 90000 / 60 % 60 = 90000 / 60) ∧
    convert_unix_to_human_string 18446744073709551556 = some "-1m" := by
  constructor
  · have h := (duration_formatter_branches 90000 (by decide)).1 (by decide)
    exact ⟨h.1 (by decide), h.2.2.2⟩
  · have h := (duration_formatter_branches 18446744073709551556 (by decide)).2.2 (by decide)
    exact h.trans (by decide)

/-- C8 counterexample: a snapshot with uptime 9223372036854776 — one second
above the chrono Duration bound and below the wrap region — makes the
pipeline abort inside the formatter, so main never returns an exit code. -/
theorem pipeline_abort_cex : main_run chrono_overflow_sys = none := by decide

/-- C8 (amended): for every platform snapshot — any combination of
unavailable metrics and any disk byte counts (u64 subtraction wraps in the
release profile rather than aborting) — whose uptime is at most
9223372036854775 seconds or at least 2 ^ 64 - 9223372036854775 (where
`as i64` wraps to an in-bounds negative value chrono accepts), the pipeline
reaches the end of main and returns exit code 0; for uptimes strictly
between those bounds the process aborts inside chrono Duration.seconds and
main never returns. -/
theorem pipeline_returns_zero (sys : SystemSnapshot) (h64 : sys.uptime < U64_MOD) :
    ((sys.uptime ≤ CHRONO_DURATION_MAX_SECS ∨
        U64_MOD - CHRONO_DURATION_MAX_SECS ≤ sys.uptime) →
      ∃ out, main_run sys = some (0, out)) ∧
    (CHRONO_DURATION_MAX_SECS < sys.uptime →
      sys.uptime < U64_MOD - CHRONO_DURATION_MAX_SECS →
      main_run sys = none) := by
  constructor
  · intro hs
    have hsome : ∃ u, convert_unix_to_human_string sys.uptime = some u := by
      rcases hs with h | h
      · exact convert_isSome_of_le_max _ h
      · exact convert_isSome_of_wrap_neg _ h h64
    obtain ⟨u, hu⟩ := hsome
    simp only [main_run, print_all_info, get_uptime]
    rw [hu]
    exact ⟨_, rfl⟩
  · intro ha hb
    simp only [main_run, print_all_info, get_uptime]
    rw [convert_eq_none_of_panic sys.uptime ha hb]
    rfl

theorem pipeline_returns_zero_witness :
    (main_run small_sys).isSome = true ∧ (main_run small_sys).map Prod.fst = some 0 := by
  obtain ⟨out, h⟩ := (pipeline_returns_zero small_sys (by decide)).1 (Or.inl (by decide))
  rw [h]
  exact ⟨rfl, rfl⟩

theorem pair_rows_length (ls : List String) : ∀ k, (pair_rows k ls).length = ls.length := by
  induction ls with
  | nil => intro k; rfl
  | cons line rest ih => intro k; simp [pair_rows, ih]

theorem pair_rows_getElem? (ls : List String) :
    ∀ k i, (pair_rows k ls)[i]? =
      (ls[i]?).map (fun line =>
        (if k + i < LOGO_HEIGHT then LOGO.getD (k + i) "" else spaces LOGO_WIDTH) ++ line) := by
  induction ls with
  | nil => intro k i; simp [pair_rows]
  | cons line rest ih =>
      intro k i
      cases i with
      | zero => simp [pair_rows]
      | succ j =>
          simp only [pair_rows, List.getElem?_cons_succ, ih (k + 1) j]
          have hkj : k + 1 + j = k + (j + 1) := by omega
          rw [hkj]

theorem triple_append_last {α : Type} (l1 l2 : List α) (x : α) :
    (l1 ++ (l2 ++ [x]))[l1.length + l2.length]? = some x := by
  rw [List.getElem?_append_right (Nat.le_add_right _ _)]
  have h : l1.length + l2.length - l1.length = l2.length := by omega
  rw [h, List.getElem?_concat_length]

/-- Helper: the pairing facts for any model whose uptime conversion
returns a string. -/
theorem renderer_pairing_of_convert (o : OutputInfo) (uptime_str : String)
    (hup : convert_unix_to_human_string o.uptime = some uptime_str) :
    ∃ out, print_all_info o = some out ∧
      out.length = 1 + max LOGO_HEIGHT (report_lines o uptime_str).length + 1 ∧
      out[0]? = some "" ∧
      out[1 + max LOGO_HEIGHT (report_lines o uptime_str).length]? = some "" ∧
      (∀ i, i < LOGO_HEIGHT → i < (report_lines o uptime_str).length →
        out[i + 1]? = ((report_lines o uptime_str)[i]?).map
          (fun line => LOGO.getD i "" ++ line)) ∧
      (∀ i, LOGO_HEIGHT ≤ i → i < (report_lines o uptime_str).length →
        out[i + 1]? = ((report_lines o uptime_str)[i]?).map
          (fun line => spaces LOGO_WIDTH ++ line)) ∧
      (spaces LOGO_WIDTH).data = List.replicate LOGO_WIDTH ' ' ∧
      (∀ i, (report_lines o uptime_str).length ≤ i → i < LOGO_HEIGHT →
        out[i + 1]? = LOGO[i]?) ∧
      (o.disks = [] → o.temperatures = [] → o.networks = [] →
        (report_lines o uptime_str).length = 5) := by
  have hH : LOGO_HEIGHT = 9 := rfl
  have hL : LOGO.length = 9 := rfl
  refine ⟨[""] ++ pair_rows 0 (report_lines o uptime_str)
      ++ (if (report_lines o uptime_str).length < LOGO_HEIGHT then
            LOGO.drop (report_lines o uptime_str).length else [])
      ++ [""], ?_, ?_, rfl, ?_, ?_, ?_, rfl, ?_, ?_⟩
  · simp only [print_all_info]
    rw [hup]
    rfl
  · simp only [List.length_append, List.length_cons, List.length_nil, pair_rows_length]
    by_cases h9 : (report_lines o uptime_str).length < LOGO_HEIGHT
    · rw [if_pos h9, List.length_drop, hL]
      rw [hH] at h9 ⊢
      omega
    · rw [if_neg h9]
      rw [hH] at h9 ⊢
      simp only [List.length_nil]
      omega
  · by_cases h9 : (report_lines o uptime_str).length < LOGO_HEIGHT
    · rw [if_pos h9]
      have hmax : 1 + max LOGO_HEIGHT (report_lines o uptime_str).length
          = LOGO_HEIGHT + 1 := by
        rw [hH] at h9 ⊢
        omega
      rw [hmax, List.append_assoc, List.append_assoc, List.singleton_append,
        List.getElem?_cons_succ]
      have h := triple_append_last (pair_rows 0 (report_lines o uptime_str))
        (LOGO.drop (report_lines o uptime_str).length) ""
      rw [pair_rows_length, List.length_drop, hL] at h
      have hidx : LOGO_HEIGHT = (report_lines o uptime_str).length
          + (9 - (report_lines o uptime_str).length) := by
        rw [hH] at h9 ⊢
        omega
      rw [hidx]
      exact h
    · rw [if_neg h9]
      have hmax : 1 + max LOGO_HEIGHT (report_lines o uptime_str).length
          = (report_lines o uptime_str).length + 1 := by
        rw [hH] at h9 ⊢
        omega
      rw [hmax, List.append_assoc, List.append_assoc, List.singleton_append,
        List.getElem?_cons_succ]
      have h := triple_append_last (pair_rows 0 (report_lines o uptime_str))
        ([] : List String) ""
      rw [pair_rows_length] at h
      simpa using h
  · intro i hi hlen
    rw [List.append_assoc, List.append_assoc, List.singleton_append,
      List.getElem?_cons_succ, List.getElem?_append,
      pair_rows_length, if_pos hlen, pair_rows_getElem?]
    simp only [Nat.zero_add]
    rw [show (if i < LOGO_HEIGHT then LOGO.getD i "" else spaces LOGO_WIDTH)
        = LOGO.getD i "" from if_pos hi]
  · intro i hi hlen
    rw [List.append_assoc, List.append_assoc, List.singleton_append,
      List.getElem?_cons_succ, List.getElem?_append,
      pair_rows_length, if_pos hlen, pair_rows_getElem?]
    simp only [Nat.zero_add]
    rw [show (if i < LOGO_HEIGHT then LOGO.getD i "" else spaces LOGO_WIDTH)
        = spaces LOGO_WIDTH from if_neg (Nat.not_lt.mpr hi)]
  · intro i hlen hi
    have h9 : (report_lines o uptime_str).length < LOGO_HEIGHT :=
      Nat.lt_of_le_of_lt hlen hi
    rw [if_pos h9, List.append_assoc, List.append_assoc, List.singleton_append,
      List.getElem?_cons_succ,
      List.getElem?_append, pair_rows_length, if_neg (Nat.not_lt.mpr hlen),
      List.getElem?_append, List.length_drop, hL]
    rw [if_pos (by rw [hH] at hi; omega)]
    rw [List.getElem?_drop]
    congr 1
    omega
  · intro h1 h2 h3
    simp [report_lines, h1, h2, h3]

/-- C1 counterexample: on a report model with uptime 9223372036854776 —
inside the chrono panic interval — the renderer prints nothing at all: the
process aborts in the uptime conversion, so neither the blank lines nor any
paired row is emitted. -/
theorem renderer_pairing_cex : print_all_info overflow_uptime_info = none := by
  decide

/-- C1 (amended): for every report model whose uptime is at most
9223372036854775 seconds or at least 2 ^ 64 - 9223372036854775 (where
`as i64` wraps to an in-bounds negative value chrono accepts), the uptime
conversion yields a string and the rendered output is: one blank line; then
for every i below min(LOGO_HEIGHT, lineCount) the row panel[i] ++
reportLine[i] with no separator; then every report line at index at least
LOGO_HEIGHT prefixed with exactly LOGO_WIDTH literal spaces; then, when the
model produces fewer than LOGO_HEIGHT lines, the unmatched trailing panel
rows alone (zero disks, temperatures and networks give exactly the 5 header
lines); then one final blank line.  For uptimes strictly between those
bounds the renderer aborts in the uptime conversion and emits nothing. -/
theorem renderer_pairing (o : OutputInfo) (h64 : o.uptime < U64_MOD) :
    ((o.uptime ≤ CHRONO_DURATION_MAX_SECS ∨
        U64_MOD - CHRONO_DURATION_MAX_SECS ≤ o.uptime) →
      ∃ uptime_str out,
        convert_unix_to_human_string o.uptime = some uptime_str ∧
        print_all_info o = some out ∧
        out.length = 1 + max LOGO_HEIGHT (report_lines o uptime_str).length + 1 ∧
        out[0]? = some "" ∧
        out[1 + max LOGO_HEIGHT (report_lines o uptime_str).length]? = some "" ∧
        (∀ i, i < LOGO_HEIGHT → i < (report_lines o uptime_str).length →
          out[i + 1]? = ((report_lines o uptime_str)[i]?).map
            (fun line => LOGO.getD i "" ++ line)) ∧
        (∀ i, LOGO_HEIGHT ≤ i → i < (report_lines o uptime_str).length →
          out[i + 1]? = ((report_lines o uptime_str)[i]?).map
            (fun line => spaces LOGO_WIDTH ++ line)) ∧
        (spaces LOGO_WIDTH).data = List.replicate LOGO_WIDTH ' ' ∧
        (∀ i, (report_lines o uptime_str).length ≤ i → i < LOGO_HEIGHT →
          out[i + 1]? = LOGO[i]?) ∧
        (o.disks = [] → o.temperatures = [] → o.networks = [] →
          (report_lines o uptime_str).length = 5)) ∧
    (CHRONO_DURATION_MAX_SECS < o.uptime →
      o.uptime < U64_MOD - CHRONO_DURATION_MAX_SECS →
      print_all_info o = none) := by
  constructor
  · intro hs
    have hsome : ∃ u, convert_unix_to_human_string o.uptime = some u := by
      rcases hs with h | h
      · exact convert_isSome_of_le_max _ h
      · exact convert_isSome_of_wrap_neg _ h h64
    obtain ⟨u, hu⟩ := hsome
    obtain ⟨out, h1, h2, h3, h4, h5, h6, h7, h8, h9⟩ :=
      renderer_pairing_of_convert o u hu
    exact ⟨u, out, hu, h1, h2, h3, h4, h5, h6, h7, h8, h9⟩
  · intro ha hb
    simp only [print_all_info]
    rw [convert_eq_none_of_panic o.uptime ha hb]
    rfl

theorem renderer_pairing_witness :
    ((print_all_info info_alice).getD [])[0]? = some "" := by
  obtain ⟨u, out, hu, h1, -, h3, -, -, -, -, -, -⟩ :=
    (renderer_pairing info_alice (by decide)).1 (Or.inl (by decide))
  rw [h1]
  exact h3

theorem hm_insert_mem {α : Type} {k : String} {v : α} {m : List (String × α)} :
    ∀ p ∈ hm_insert k v m, p = (k, v) ∨ p ∈ m := by
  intro p hp
  rcases List.mem_append.1 hp with h | h
  · exact Or.inr (List.mem_of_mem_filter h)
  · exact Or.inl (List.mem_singleton.mp h)

theorem map_fst_hm_insert {α : Type} (k : String) (v : α) (m : List (String × α)) :
    (hm_insert k v m).map Prod.fst
      = ((m.map Prod.fst).filter (fun x => x != k)) ++ [k] := by
  simp only [hm_insert, List.map_append]
  congr 1
  exact (List.map_filter (p := fun x => x != k) Prod.fst m).symm

theorem keys_nodup_hm_insert {α : Type} (k : String) (v : α) (m : List (String × α))
    (h : (m.map Prod.fst).Nodup) : ((hm_insert k v m).map Prod.fst).Nodup := by
  rw [map_fst_hm_insert]
  refine List.Nodup.append (h.filter _) (List.nodup_singleton k) ?_
  intro x hx hx2
  have h1 : (x != k) = true := List.of_mem_filter (p := fun y => y != k) hx
  have h2 : x = k := List.mem_singleton.mp hx2
  rw [h2] at h1
  simp at h1

theorem lookup_append {α : Type} (k : String) (l1 l2 : List (String × α)) :
    List.lookup k (l1 ++ l2) = (List.lookup k l1).or (List.lookup k l2) := by
  induction l1 with
  | nil => simp [List.lookup]
  | cons p rest ih =>
      obtain ⟨k1, v1⟩ := p
      rw [List.cons_append, List.lookup_cons, List.lookup_cons]
      cases hk : (k == k1)
      · simpa using ih
      · rfl

theorem lookup_filter_out {α : Type} (k : String) (m : List (String × α)) :
    List.lookup k (m.filter fun p => p.1 != k) = none := by
  induction m with
  | nil => rfl
  | cons p rest ih =>
      obtain ⟨k1, v1⟩ := p
      rw [List.filter_cons]
      by_cases h : k1 = k
      · rw [if_neg (by simp [h])]
        exact ih
      · rw [if_pos (by simp [h]), List.lookup_cons]
        have hb : (k == k1) = false := by
          simp only [beq_eq_false_iff_ne, ne_eq]
          exact fun he => h he.symm
        rw [hb]
        exact ih

theorem lookup_filter_ne {α : Type} (k k0 : String) (m : List (String × α))
    (h : k ≠ k0) :
    List.lookup k (m.filter fun p => p.1 != k0) = List.lookup k m := by
  induction m with
  | nil => rfl
  | cons p rest ih =>
      obtain ⟨k1, v1⟩ := p
      rw [List.filter_cons]
      by_cases h1 : k1 = k0
      · rw [if_neg (by simp [h1]), List.lookup_cons]
        have hb : (k == k1) = false := by
          simp only [beq_eq_false_iff_ne, ne_eq]
          rw [h1]
          exact h
        rw [hb]
        exact ih
      · rw [if_pos (by simp [h1]), List.lookup_cons, List.lookup_cons]
        cases hk : (k == k1)
        · exact ih
        · rfl

theorem lookup_hm_insert {α : Type} (k k0 : String) (v : α) (m : List (String × α)) :
    List.lookup k (hm_insert k0 v m)
      = if k = k0 then some v else List.lookup k m := by
  rw [hm_insert, lookup_append]
  by_cases h : k = k0
  · rw [if_pos h, h, lookup_filter_out, Option.none_or, List.lookup_cons]
    rw [show (k0 == k0) = true from beq_iff_eq.mpr rfl]
  · rw [if_neg h, lookup_filter_ne k k0 m h]
    have hnone : List.lookup k [(k0, v)] = none := by
      rw [List.lookup_cons]
      rw [show (k == k0) = false from beq_eq_false_iff_ne.mpr h]
      rfl
    rw [hnone, Option.or_none]

theorem hm_build_pair_prop {β α : Type} (key : β → String) (mk : β → α)
    (P : String × α → Prop) :
    ∀ (items : List β) (m0 : List (String × α)),
      (∀ b ∈ items, P (key b, mk b)) → (∀ p ∈ m0, P p) →
      ∀ p ∈ items.foldl (fun m b => hm_insert (key b) (mk b) m) m0, P p := by
  intro items
  induction items with
  | nil => intro m0 _ h0 p hp; exact h0 p hp
  | cons b rest ih =>
      intro m0 hitems h0 p hp
      rw [List.foldl_cons] at hp
      refine ih (hm_insert (key b) (mk b) m0)
        (fun c hc => hitems c (List.mem_cons_of_mem b hc)) ?_ p hp
      intro q hq
      rcases hm_insert_mem q hq with h | h
      · rw [h]; exact hitems b (List.mem_cons_self b rest)
      · exact h0 q h

theorem hm_build_keys_nodup {β α : Type} (key : β → String) (mk : β → α) :
    ∀ (items : List β) (m0 : List (String × α)),
      (m0.map Prod.fst).Nodup →
      ((items.foldl (fun m b => hm_insert (key b) (mk b) m) m0).map Prod.fst).Nodup := by
  intro items
  induction items with
  | nil => intro m0 h0; exact h0
  | cons b rest ih =>
      intro m0 h0
      rw [List.foldl_cons]
      exact ih (hm_insert (key b) (mk b) m0) (keys_nodup_hm_insert _ _ _ h0)

theorem hm_build_lookup {β α : Type} (key : β → String) (mk : β → α)
    (items : List β) (k : String) :
    List.lookup k (items.foldl (fun m b => hm_insert (key b) (mk b) m) []) =
      (items.reverse.find? (fun b => key b == k)).map mk := by
  induction items using List.reverseRecOn with
  | nil => rfl
  | append_singleton l b ih =>
      rw [List.foldl_append, List.foldl_cons, List.foldl_nil, lookup_hm_insert,
        List.reverse_append, List.reverse_singleton, List.singleton_append]
      by_cases h : k = key b
      · have hfind : List.find? (fun c => key c == k) (b :: l.reverse) = some b :=
          List.find?_cons_of_pos _ (beq_iff_eq.mpr h.symm)
        rw [if_pos h, hfind]
        rfl
      · have hfind : List.find? (fun c => key c == k) (b :: l.reverse)
            = List.find? (fun c => key c == k) l.reverse := by
          apply List.find?_cons_of_neg
          simp only [beq_iff_eq]
          exact fun he => h he.symm
        rw [if_neg h, ih, hfind]

/-- C10: in every report model the collector builds, each map key equals the
identifying field stored inside its own entry; the map keys are pairwise
distinct, so duplicate platform identifiers leave exactly one entry; and
lookup returns the entry built from the last enumerated item carrying that
identifier (the later enumeration overwrites the earlier one). -/
theorem map_key_matches_entry (sys : SystemSnapshot) :
    (∀ k v, (k, v) ∈ get_disk_info sys → v.mount_point = k) ∧
    (∀ k v, (k, v) ∈ get_temperature_info sys → v.label = k) ∧
    (∀ k v, (k, v) ∈ get_network_info sys → v.interface_name = k) ∧
    ((get_disk_info sys).map Prod.fst).Nodup ∧
    ((get_temperature_info sys).map Prod.fst).Nodup ∧
    ((get_network_info sys).map Prod.fst).Nodup ∧
    (∀ k, List.lookup k (get_disk_info sys)
      = (sys.disks.reverse.find? (fun d => d.mount_point == k)).map mk_disk_entry) ∧
    (∀ k, List.lookup k (get_temperature_info sys)
      = (sys.components.reverse.find? (fun c => c.label == k)).map mk_temp_entry) ∧
    (∀ k, List.lookup k (get_network_info sys)
      = (sys.networks.reverse.find? (fun n => n.interface_name == k)).map mk_network_entry) := by
  refine ⟨?_, ?_, ?_, ?_, ?_, ?_, ?_, ?_, ?_⟩
  · intro k v hkv
    exact hm_build_pair_prop PlatformDisk.mount_point mk_disk_entry
      (fun p => p.2.mount_point = p.1) sys.disks [] (fun b _ => rfl)
      (by intro q hq; cases hq) (k, v) hkv
  · intro k v hkv
    exact hm_build_pair_prop PlatformComponent.label mk_temp_entry
      (fun p => p.2.label = p.1) sys.components [] (fun b _ => rfl)
      (by intro q hq; cases hq) (k, v) hkv
  · intro k v hkv
    exact hm_build_pair_prop PlatformNetwork.interface_name mk_network_entry
      (fun p => p.2.interface_name = p.1) sys.networks [] (fun b _ => rfl)
      (by intro q hq; cases hq) (k, v) hkv
  · exact hm_build_keys_nodup PlatformDisk.mount_point mk_disk_entry
      sys.disks [] List.nodup_nil
  · exact hm_build_keys_nodup PlatformComponent.label mk_temp_entry
      sys.components [] List.nodup_nil
  · exact hm_build_keys_nodup PlatformNetwork.interface_name mk_network_entry
      sys.networks [] List.nodup_nil
  · intro k
    exact hm_build_lookup PlatformDisk.mount_point mk_disk_entry sys.disks k
  · intro k
    exact hm_build_lookup PlatformComponent.label mk_temp_entry sys.components k
  · intro k
    exact hm_build_lookup PlatformNetwork.interface_name mk_network_entry sys.networks k

theorem map_key_matches_entry_witness :
    (mk_disk_entry btrfs_root_disk).mount_point = "/" ∧
    List.lookup "/" (get_disk_info dup_mount_sys)
      = some (mk_disk_entry btrfs_root_disk) := by
  have h := map_key_matches_entry dup_mount_sys
  constructor
  · exact h.1 "/" (mk_disk_entry btrfs_root_disk) (by decide)
  · exact (h.2.2.2.2.2.2.1 "/").trans (by decide)
